import Mathlib

/-!
Verification of the upsert-and-embed engine of `src/BTL_DATA.py`.

The embedding models the two core functions `load_or_create_excel`
(lines 20-37) and `save_image_to_excel` (lines 39-117) together with the
parts of their library collaborators that the engine's behaviour depends
on:

* the openpyxl worksheet state that the engine reads and writes: cell
  values and alignments of the four columns, the column widths of
  columns A-D, the per-row heights, and the list of embedded image
  overlays (`Worksheet`);
* PIL images at the level of (width, height, color mode), with
  `Image.open` modelled as an `Option` (decodable or not), `convert`,
  `resize`, and the JPEG encoder's acceptance of color modes;
* Python binary64 floating point for the one arithmetic step whose
  rounding is observable, `int(img.width * (MAX_IMAGE_HEIGHT / img.height))`
  (line 65), via an exact round-to-nearest-even emulation over ℕ
  (`roundDouble`);
* the backing file as an `Option Worksheet` (absent or present), and
  `wb.save` I/O failure as an explicit environment flag.

Numeric sheet state (column widths, row heights) is kept as unreduced
nonnegative fractions `Frac` so that every definition evaluates inside
the kernel; `Frac.val` interprets them in ℚ for the statements.  The
quotients `new_width / 7` and `new_height / 1.33` (lines 76 and 84) are
modelled exactly rather than in binary64: their binary64 roundings
differ from the exact values by strictly less than one part in 2^52,
which cannot affect any comparison or equality appearing in the claims
(all compared points are exactly representable), whereas the line-65
rounding is observable at integer granularity and is therefore modelled
bit-exactly.
-/

/-- Nonnegative rational `num / den` kept as an unreduced pair so that all
sheet arithmetic reduces in the kernel (no gcd normalisation).  All
denominators produced by the embedding are positive. -/
structure Frac where
  num : ℕ
  den : ℕ
deriving DecidableEq

/-- Interpretation of a `Frac` as a rational number. -/
def Frac.val (a : Frac) : ℚ := (a.num : ℚ) / (a.den : ℚ)

/-- Strict comparison of two fractions by cross multiplication
(correct whenever both denominators are positive). -/
def Frac.lt (a b : Frac) : Bool := decide (a.num * b.den < b.num * a.den)

/-- Python `max(a, b)`: returns `a` unless `a < b`. -/
def Frac.max (a b : Frac) : Frac := if Frac.lt a b then b else a

/-- Bit length of a natural number, with explicit fuel so that the
definition is structural and reduces in the kernel.  `bitLen f n` is
correct whenever `n < 2 ^ f`. -/
def bitLen : ℕ → ℕ → ℕ
  | 0, _ => 0
  | fuel + 1, n => if n = 0 then 0 else bitLen fuel (n / 2) + 1

/-- Exact model of rounding the positive rational `n / d` to the nearest
IEEE-754 binary64 value (round to nearest, ties to even, 53-bit
significand), returned as an unreduced fraction.  Exponent range checks
(overflow, subnormals) are omitted: every value arising in this program
is far inside the normal range.  This is the semantics of one Python
float operation producing `n / d` exactly, e.g. `300 / h` or `w * r`
with both operands exact. -/
def roundDouble (n d : ℕ) : ℕ × ℕ :=
  let b : ℤ := (bitLen 4096 n : ℤ) - (bitLen 4096 d : ℤ)
  let ge : Bool :=
    if 0 ≤ b then decide (d * 2 ^ b.toNat ≤ n) else decide (d ≤ n * 2 ^ (-b).toNat)
  let e : ℤ := if ge then b else b - 1
  let k : ℤ := 52 - e
  let sn : ℕ := if 0 ≤ k then n * 2 ^ k.toNat else n
  let sd : ℕ := if 0 ≤ k then d else d * 2 ^ (-k).toNat
  let q : ℕ := sn / sd
  let r : ℕ := sn % sd
  let m : ℕ :=
    if 2 * r < sd then q else if sd < 2 * r then q + 1 else if q % 2 = 0 then q else q + 1
  if 0 ≤ e - 52 then (m * 2 ^ (e - 52).toNat, 1) else (m, 2 ^ (52 - e).toNat)

/-- Line 15: `MAX_IMAGE_HEIGHT = 300  # pixels`. -/
def MAX_IMAGE_HEIGHT : ℕ := 300

/-- Line 63-65: `ratio = MAX_IMAGE_HEIGHT / img.height;
new_width = int(img.width * ratio)` — two binary64 operations followed
by truncation toward zero (all values here are nonnegative, so `int`
is the floor of the second rounded product). -/
def pyResizeWidth (w h : ℕ) : ℕ :=
  let r := roundDouble MAX_IMAGE_HEIGHT h
  let p := roundDouble (w * r.1) r.2
  p.1 / p.2

/-- PIL color modes relevant to this program (`jpg`/`jpeg`/`png` uploads,
line 172, decode to one of these). -/
inductive PILMode
  | RGB
  | RGBA
  | LA
  | L
  | P
  | CMYK
deriving DecidableEq

/-- A decoded PIL image, at the granularity the engine observes:
pixel dimensions and color mode. -/
structure PILImage where
  width : ℕ
  height : ℕ
  mode : PILMode
deriving DecidableEq

/-- Lines 58-59: `if img.mode == 'RGBA': img = img.convert('RGB')`. -/
def convertIfRGBA (img : PILImage) : PILImage :=
  if img.mode = PILMode.RGBA then { img with mode := PILMode.RGB } else img

/-- Lines 62-68: the new dimensions computed before the resize call. -/
def resizeDims (img : PILImage) : ℕ × ℕ :=
  if MAX_IMAGE_HEIGHT < img.height then
    (pyResizeWidth img.width img.height, MAX_IMAGE_HEIGHT)
  else
    (img.width, img.height)

/-- Line 70: `img = img.resize((new_width, new_height))` — same mode,
new dimensions. -/
def resizeImage (img : PILImage) : PILImage :=
  { img with width := (resizeDims img).1, height := (resizeDims img).2 }

/-- Color modes the PIL JPEG encoder accepts; `img.save(TEMP_IMAGE,
"JPEG", quality=90)` (line 73) raises `OSError` for any other mode. -/
def jpegWritable : PILMode → Bool
  | PILMode.L => true
  | PILMode.RGB => true
  | PILMode.CMYK => true
  | _ => false

/-- Modelled from the spec: a color mode that "uses an alpha channel"
("If the decoded image uses an alpha channel, flatten it to an opaque
3-channel representation").  The source itself only ever tests for the
single mode `'RGBA'` (line 58); this predicate captures the spec's
broader wording for comparison. -/
def alpha_bearing : PILMode → Bool
  | PILMode.RGBA => true
  | PILMode.LA => true
  | _ => false

/-- An openpyxl cell alignment (`openpyxl.styles.Alignment`): the two
attributes the program sets (lines 94-97 and 107). -/
structure CellAlign where
  vertical : Option String := none
  wrapText : Option Bool := none
deriving DecidableEq

/-- One worksheet row, at the granularity the program touches: the cell
values of columns 1-4 (`None` for an empty cell, as `iter_rows
(values_only=True)` reports) and the alignments of columns 1, 2 and 4.
Column 3 (`IMAGE_COLUMN`) never receives a cell value; images are
overlays, kept separately on the worksheet. -/
structure XRow where
  c1 : Option String := none
  c2 : Option String := none
  c3 : Option String := none
  c4 : Option String := none
  a1 : Option CellAlign := none
  a2 : Option CellAlign := none
  a4 : Option CellAlign := none
deriving DecidableEq

/-- Line 29: `ws.append(DATA_COLUMNS)` with
`DATA_COLUMNS = ['Shop_ID', 'Region', 'last_updated']` (line 18). -/
def headerRow : XRow :=
  { c1 := some ("Shop_ID"), c2 := some ("Region"), c3 := some ("last_updated") }

/-- The active worksheet: rows in storage order (row `i`, 1-based, is
entry `i - 1`), the widths of columns A-D (`column_dimensions`), the
per-row heights (`row_dimensions`, an insertion-ordered map), and the
embedded image overlays in insertion order, each anchored at column
`IMAGE_COLUMN = 'C'` of the recorded row. -/
structure Worksheet where
  rows : List XRow
  widthA : Frac
  widthB : Frac
  widthC : Frac
  widthD : Frac
  rowHeights : List (ℕ × Frac)
  images : List (ℕ × PILImage)
deriving DecidableEq

/-- A loaded openpyxl workbook: its active worksheet plus the ad-hoc
Python attribute `max_image_width` that lines 23-24 and 79-80 attach to
the workbook *object*.  The attribute is not part of the saved file
format, so it is carried here on the workbook and not on `Worksheet`. -/
structure Workbook where
  ws : Worksheet
  max_image_width : Frac
deriving DecidableEq

/-- The Python exceptions the engine can raise internally; all derive
from `Exception` and are caught by line 112. -/
inductive PyErr
  | typeError
  | unidentifiedImage
  | osError
  | ioError
deriving DecidableEq

/-- Line 47: `row and row[0] == shop_id and row[1] == region` on a
`values_only` tuple. -/
def rowMatchesB (row : XRow) (shop_id region : String) : Bool :=
  decide (row.c1 = some shop_id ∧ row.c2 = some region)

/-- The 0-based index of the first matching row. -/
def find0 (rows : List XRow) (shop_id region : String) : Option ℕ :=
  rows.findIdx? fun row => rowMatchesB row shop_id region

/-- Lines 45-49: `for idx, row in enumerate(ws.iter_rows(values_only=True), 1)`
with first-match break — the 1-based index of the first row whose first
two cells equal the key, or `None`. -/
def find_row (ws : Worksheet) (shop_id region : String) : Option ℕ :=
  (find0 ws.rows shop_id region).map (· + 1)

/-- The row at 1-based index `i` (an empty row when out of range, as
openpyxl materialises absent cells as empty). -/
def rowAt (rows : List XRow) (i : ℕ) : XRow := rows.getD (i - 1) {}

/-- The value of `ws.max_row`: openpyxl reports at least 1 even for an empty sheet. -/
def maxRow (ws : Worksheet) : ℕ := max 1 ws.rows.length

/-- Writing to the 1-based row `i` (`ws.cell(row=i, ...)`): rows are
materialised (as empty rows) up to `i` if needed, then row `i` is
replaced by `f` of its previous value.  Row index 0 does not exist in
openpyxl and is left as a no-op. -/
def updateRow : List XRow → ℕ → (XRow → XRow) → List XRow
  | rows, 0, _ => rows
  | [], 1, f => [f {}]
  | row :: rest, 1, f => f row :: rest
  | [], Nat.succ (Nat.succ n), f => {} :: updateRow [] (n + 1) f
  | row :: rest, Nat.succ (Nat.succ n), f => row :: updateRow rest (n + 1) f

/-- Reading `ws.row_dimensions[i].height` from the insertion-ordered
row-height map. -/
def lookupHeight : List (ℕ × Frac) → ℕ → Option Frac
  | [], _ => none
  | p :: rest, i => if p.1 = i then some p.2 else lookupHeight rest i

/-- Line 85: `ws.row_dimensions[row_idx].height = row_height` — update in
place if the key is present (Python dict semantics), else append. -/
def setHeight (hs : List (ℕ × Frac)) (i : ℕ) (v : Frac) : List (ℕ × Frac) :=
  if hs.any fun p => p.1 = i then
    hs.map fun p => if p.1 = i then (i, v) else p
  else
    hs ++ [(i, v)]

/-- The spec's pure geometry function `pixelsToColumnWidth(px) ->
max(10, px / 7)` (line 76 of the source computes exactly this
expression). -/
def pixelsToColumnWidth (px : ℕ) : ℚ := max 10 ((px : ℚ) / 7)

/-- The spec's pure geometry function `pixelsToRowHeight(px) ->
max(15, px / 1.33)` (line 84 of the source computes exactly this
expression). -/
def pixelsToRowHeight (px : ℕ) : ℚ := max 15 ((px : ℚ) / (133 / 100))

/-- Line 76: `required_width = max(10, new_width / 7)`, as an exact
fraction. -/
def required_width_of (new_width : ℕ) : Frac :=
  Frac.max ⟨10, 1⟩ ⟨new_width, 7⟩

/-- Line 84: `row_height = max(15, new_height / 1.33)`, as an exact
fraction (`px / 1.33 = 100 * px / 133`). -/
def row_height_of (new_height : ℕ) : Frac :=
  Frac.max ⟨15, 1⟩ ⟨100 * new_height, 133⟩

/-- Lines 20-37, `load_or_create_excel()`.  The backing file is `some`
worksheet or absent.

* File present (lines 21-25): `load_workbook(EXCEL_FILE)` returns a
  fresh workbook object; such an object never carries the ad-hoc
  attribute `max_image_width`, so the `hasattr` test of line 23 always
  installs the default 30.
* File absent (lines 26-37): line 27 calls `load_workbook()` with no
  filename, which raises `TypeError` immediately (the function's
  `filename` parameter is required); lines 28-37, which would build and
  persist the fresh header sheet, are unreachable.

The result carries the loaded workbook together with the (unchanged)
backing file. -/
def load_or_create_excel (file : Option Worksheet) :
    Except PyErr (Workbook × Option Worksheet) :=
  match file with
  | some f => Except.ok ({ ws := f, max_image_width := ⟨30, 1⟩ }, some f)
  | none => Except.error PyErr.typeError

/-- Lines 44-54: find the existing row or create a new one.  Returns the
(possibly extended) worksheet and the 1-based target row index.  On a
miss, `row_idx = ws.max_row + 1` and the two key cells are written
(lines 52-54). -/
def locate_stage (ws : Worksheet) (shop_id region : String) : Worksheet × ℕ :=
  match find_row ws shop_id region with
  | some i => (ws, i)
  | none =>
    let i := maxRow ws + 1
    ({ ws with
        rows := updateRow ws.rows i fun row =>
          { row with c1 := some shop_id, c2 := some region } }, i)

/-- Lines 75-107: the staging writes performed after the image has been
serialised — column-width policy, row height, image overlay, timestamp
cell with top-aligned wrapped text, timestamp column width, and
vertical centering of the key cells.  `maxw` is the workbook's
`max_image_width` attribute (always 30 on entry, see
`load_or_create_excel`). -/
def stage_ws (ws : Worksheet) (maxw : Frac) (row_idx : ℕ) (img : PILImage)
    (now : String) : Worksheet :=
  let required_width := required_width_of img.width
  let ws2 :=
    if Frac.lt maxw required_width then { ws with widthC := required_width }
    else ws
  let ws3 :=
    { ws2 with rowHeights := setHeight ws2.rowHeights row_idx (row_height_of img.height) }
  let ws4 := { ws3 with images := ws3.images ++ [(row_idx, img)] }
  let ws5 :=
    { ws4 with
        rows := updateRow ws4.rows row_idx fun row =>
          { row with
              c4 := some now
              a4 := some { vertical := some ("top"), wrapText := some true } } }
  let ws6 :=
    { ws5 with widthD := Frac.max ⟨20, 1⟩ ⟨("YYYY-MM-DD").length + 2, 1⟩ }
  { ws6 with
      rows :=
        updateRow
          (updateRow ws6.rows row_idx fun row =>
            { row with a1 := some { vertical := some ("center") } })
          row_idx fun row =>
          { row with a2 := some { vertical := some ("center") } } }

/-- The in-flight state carried out of the `try` block when an exception
is raised: which exception, the in-memory worksheet object at the
moment of the raise (`none` if the load itself failed), the backing
file (unchanged unless `wb.save` completed), and whether `TEMP_IMAGE`
exists at that moment. -/
structure FailInfo where
  err : PyErr
  wsMem : Option Worksheet
  fileAfter : Option Worksheet
  temp : Bool
deriving DecidableEq

/-- The state at the end of a successful `try` block: the final
worksheet (also persisted to the backing file by line 109), the target
row index, and the `TEMP_IMAGE` flag (always true here: line 73 wrote
it). -/
structure OkInfo where
  wsMem : Worksheet
  fileAfter : Option Worksheet
  row_idx : ℕ
  temp : Bool
deriving DecidableEq

/-- Lines 40-110: the body of the `try` block of `save_image_to_excel`,
in source order.

* line 41: load or create (may raise `TypeError`, see
  `load_or_create_excel`);
* lines 44-54: locate or create the key row — before the image is
  touched;
* line 57: `Image.open` — raises `UnidentifiedImageError` when the
  uploaded bytes are not a decodable image (`uploaded_file = none`);
* lines 58-70: mode conversion and resize;
* line 73: JPEG serialisation to `TEMP_IMAGE` — raises `OSError` for a
  mode the encoder rejects (the transient file is created by `open`
  before the encoder runs, so it exists even on this failure);
* lines 75-107: staging writes;
* line 109: `wb.save(EXCEL_FILE)` — `saveFails` models an environment
  I/O failure here.

`temp0` is whether `TEMP_IMAGE` already exists on entry. -/
def upsertTry (file : Option Worksheet) (shop_id region : String)
    (uploaded_file : Option PILImage) (now : String) (saveFails temp0 : Bool) :
    Except FailInfo OkInfo :=
  match load_or_create_excel file with
  | Except.error e =>
    Except.error { err := e, wsMem := none, fileAfter := file, temp := temp0 }
  | Except.ok wbf =>
    let wb := wbf.1
    let file1 := wbf.2
    let ws1 := (locate_stage wb.ws shop_id region).1
    let row_idx := (locate_stage wb.ws shop_id region).2
    match uploaded_file with
    | none =>
      Except.error
        { err := PyErr.unidentifiedImage, wsMem := some ws1, fileAfter := file1,
          temp := temp0 }
    | some img0 =>
      let img2 := resizeImage (convertIfRGBA img0)
      if jpegWritable img2.mode then
        let ws2 := stage_ws ws1 wb.max_image_width row_idx img2 now
        if saveFails then
          Except.error
            { err := PyErr.ioError, wsMem := some ws2, fileAfter := file1,
              temp := true }
        else
          Except.ok
            { wsMem := ws2, fileAfter := some ws2, row_idx := row_idx, temp := true }
      else
        Except.error
          { err := PyErr.osError, wsMem := some ws1, fileAfter := file1, temp := true }

/-- The message text interpolated into line 113's
`f"Error saving image: {str(e)}"`. -/
def errMessage : PyErr → String
  | PyErr.typeError =>
    "load_workbook() missing 1 required positional argument: filename"
  | PyErr.unidentifiedImage => "cannot identify image file"
  | PyErr.osError => "cannot write this image mode as JPEG"
  | PyErr.ioError => "I/O error while saving workbook"

/-- Everything observable when `save_image_to_excel` returns: the
boolean result, the `st.error` message if any (line 113), the backing
file afterwards, whether `TEMP_IMAGE` still exists after the `finally`
block (lines 115-117), and — as a trace for the statements — the target
row index on success. -/
structure SaveOutcome where
  ok : Bool
  errMsg : Option String
  file : Option Worksheet
  tempExists : Bool
  row_idx : Option ℕ
deriving DecidableEq

/-- Lines 39-117, `save_image_to_excel(shop_id, region, uploaded_file)`:
run the `try` body; on any exception report it and return `False`
(lines 112-114); in both cases the `finally` block (lines 115-117)
removes `TEMP_IMAGE` if it exists. -/
def save_image_to_excel (file : Option Worksheet) (shop_id region : String)
    (uploaded_file : Option PILImage) (now : String) (saveFails temp0 : Bool) :
    SaveOutcome :=
  match upsertTry file shop_id region uploaded_file now saveFails temp0 with
  | Except.ok info =>
    { ok := true, errMsg := none, file := info.fileAfter, tempExists := false,
      row_idx := some info.row_idx }
  | Except.error f =>
    { ok := false, errMsg := some (("Error saving image: ") ++ errMessage f.err),
      file := f.fileAfter, tempExists := false, row_idx := none }

/-- The fresh sheet that lines 28-35 are written to produce (three-column
header, starter widths A=15, B=20, C=30, D=20) — unreachable in the
source because of the line-27 `TypeError`, but the intended initial
state, used below as a concrete test sheet. -/
def fresh_sheet : Worksheet :=
  { rows := [headerRow], widthA := ⟨15, 1⟩, widthB := ⟨20, 1⟩,
    widthC := ⟨30, 1⟩, widthD := ⟨20, 1⟩, rowHeights := [], images := [] }

/-- The image-column width recorded in the resulting backing file (0 when
the call left no file). -/
def fileWidthC (o : SaveOutcome) : Frac :=
  match o.file with
  | some ws => ws.widthC
  | none => ⟨0, 1⟩

/-- The number of rows in a backing file. -/
def rowCountOf : Option Worksheet → ℕ
  | some ws => ws.rows.length
  | none => 0

/-- The rows of the resulting backing file. -/
def fileRows (o : SaveOutcome) : List XRow :=
  match o.file with
  | some ws => ws.rows
  | none => []

/-- The image overlays of the resulting backing file. -/
def fileImages (o : SaveOutcome) : List (ℕ × PILImage) :=
  match o.file with
  | some ws => ws.images
  | none => []

/-- The number of image overlays anchored at cell `C{i}` of a sheet. -/
def overlaysAt (ws : Worksheet) (i : ℕ) : ℕ :=
  (ws.images.filter fun p => p.1 = i).length

/-- The in-memory worksheet at the moment an upsert attempt ended
(at the raise, for a failed attempt). -/
def errWs : Except FailInfo OkInfo → Option Worksheet
  | Except.error f => f.wsMem
  | Except.ok o => some o.wsMem

/-- The number of rows of the in-memory worksheet at that moment. -/
def errRowsLen (x : Except FailInfo OkInfo) : ℕ :=
  match errWs x with
  | some ws => ws.rows.length
  | none => 0

/-- The row-height map of the resulting backing file. -/
def fileRowHeights (o : SaveOutcome) : List (ℕ × Frac) :=
  match o.file with
  | some ws => ws.rowHeights
  | none => []

theorem Frac.lt_iff_val (a b : Frac) (ha : 0 < a.den) (hb : 0 < b.den) :
    Frac.lt a b = true ↔ a.val < b.val := by
  have ha' : (0 : ℚ) < (a.den : ℚ) := by exact_mod_cast ha
  have hb' : (0 : ℚ) < (b.den : ℚ) := by exact_mod_cast hb
  rw [Frac.lt, decide_eq_true_iff, Frac.val, Frac.val,
    div_lt_div_iff₀ ha' hb']
  constructor
  · intro h
    have := (Nat.cast_lt (α := ℚ)).mpr h
    push_cast at this ⊢
    linarith
  · intro h
    have : ((a.num * b.den : ℕ) : ℚ) < ((b.num * a.den : ℕ) : ℚ) := by
      push_cast
      linarith
    exact_mod_cast this

theorem find0_nil (s t : String) : find0 [] s t = none := rfl

theorem find0_cons (r : XRow) (rest : List XRow) (s t : String) :
    find0 (r :: rest) s t =
      if rowMatchesB r s t then some 0 else (find0 rest s t).map (· + 1) := by
  by_cases h : rowMatchesB r s t = true
  · simp [find0, List.findIdx?_cons, h]
  · simp only [Bool.not_eq_true] at h
    simp [find0, List.findIdx?_cons, h]

theorem rowMatchesB_empty (s t : String) : rowMatchesB {} s t = false := by
  simp [rowMatchesB]

theorem updateRow_length (f : XRow → XRow) :
    ∀ (i : ℕ) (rows : List XRow),
      (updateRow rows (i + 1) f).length = max rows.length (i + 1) := by
  intro i
  induction i with
  | zero =>
    intro rows
    cases rows with
    | nil => simp [updateRow]
    | cons r rest =>
      simp only [updateRow, List.length_cons, Nat.max_def]
      split <;> omega
  | succ n ih =>
    intro rows
    cases rows with
    | nil =>
      simp only [updateRow, List.length_cons, List.length_nil, ih [], Nat.max_def]
      split <;> split <;> omega
    | cons r rest =>
      simp only [updateRow, List.length_cons, ih rest, Nat.max_def]
      split <;> split <;> omega

theorem find0_updateRow_congr (s t : String) (f : XRow → XRow)
    (hf : ∀ row, rowMatchesB (f row) s t = rowMatchesB row s t) :
    ∀ (i : ℕ) (rows : List XRow),
      find0 (updateRow rows (i + 1) f) s t = find0 rows s t := by
  intro i
  induction i with
  | zero =>
    intro rows
    cases rows with
    | nil => simp [updateRow, find0_cons, hf, rowMatchesB_empty, find0_nil]
    | cons r rest => simp only [updateRow, find0_cons, hf]
  | succ n ih =>
    intro rows
    cases rows with
    | nil =>
      simp only [updateRow, find0_cons, rowMatchesB_empty, if_neg Bool.false_ne_true,
        ih [], find0_nil, Option.map_none']
    | cons r rest =>
      simp only [updateRow, find0_cons, ih rest]

theorem find0_updateRow_key (s t : String) (f : XRow → XRow)
    (hf : ∀ row, rowMatchesB (f row) s t = true) :
    ∀ (i : ℕ) (rows : List XRow), rows.length ≤ i → find0 rows s t = none →
      find0 (updateRow rows (i + 1) f) s t = some i := by
  intro i
  induction i with
  | zero =>
    intro rows hlen _
    have : rows = [] := List.length_eq_zero.mp (Nat.le_zero.mp hlen)
    subst this
    simp [updateRow, find0_cons, hf]
  | succ n ih =>
    intro rows hlen hbase
    cases rows with
    | nil =>
      simp only [updateRow, find0_cons, rowMatchesB_empty, if_neg Bool.false_ne_true,
        ih [] (Nat.zero_le n) (find0_nil s t), Option.map_some']
    | cons r rest =>
      rw [find0_cons] at hbase
      by_cases hr : rowMatchesB r s t = true
      · simp [hr] at hbase
      · simp only [Bool.not_eq_true] at hr
        rw [hr] at hbase
        simp only [if_neg Bool.false_ne_true, Option.map_eq_none'] at hbase
        simp only [updateRow, find0_cons, hr, if_neg Bool.false_ne_true,
          ih rest (Nat.le_of_succ_le_succ hlen) hbase, Option.map_some']

theorem locate_stage_found {ws : Worksheet} {s t : String} {i : ℕ}
    (h : find_row ws s t = some i) : locate_stage ws s t = (ws, i) := by
  simp [locate_stage, h]

theorem locate_stage_missing {ws : Worksheet} {s t : String}
    (h : find_row ws s t = none) :
    locate_stage ws s t =
      ({ ws with
          rows := updateRow ws.rows (maxRow ws + 1) fun row =>
            { row with c1 := some s, c2 := some t } }, maxRow ws + 1) := by
  simp [locate_stage, h]

theorem stage_ws_rows (ws : Worksheet) (maxw : Frac) (i : ℕ) (img : PILImage)
    (now : String) :
    (stage_ws ws maxw i img now).rows =
      updateRow
        (updateRow
          (updateRow ws.rows i fun row =>
            { row with
                c4 := some now
                a4 := some { vertical := some ("top"), wrapText := some true } })
          i fun row => { row with a1 := some { vertical := some ("center") } })
        i fun row => { row with a2 := some { vertical := some ("center") } } := by
  by_cases h : Frac.lt maxw (required_width_of img.width) = true
  · simp [stage_ws, h]
  · simp only [Bool.not_eq_true] at h
    simp [stage_ws, h]

theorem stage_ws_widthC (ws : Worksheet) (maxw : Frac) (i : ℕ) (img : PILImage)
    (now : String) :
    (stage_ws ws maxw i img now).widthC =
      if Frac.lt maxw (required_width_of img.width) then required_width_of img.width
      else ws.widthC := by
  by_cases h : Frac.lt maxw (required_width_of img.width) = true
  · simp [stage_ws, h]
  · simp only [Bool.not_eq_true] at h
    simp [stage_ws, h]

theorem stage_ws_rowHeights (ws : Worksheet) (maxw : Frac) (i : ℕ)
    (img : PILImage) (now : String) :
    (stage_ws ws maxw i img now).rowHeights =
      setHeight ws.rowHeights i (row_height_of img.height) := by
  by_cases h : Frac.lt maxw (required_width_of img.width) = true
  · simp [stage_ws, h]
  · simp only [Bool.not_eq_true] at h
    simp [stage_ws, h]

theorem stage_ws_images (ws : Worksheet) (maxw : Frac) (i : ℕ) (img : PILImage)
    (now : String) :
    (stage_ws ws maxw i img now).images = ws.images ++ [(i, img)] := by
  by_cases h : Frac.lt maxw (required_width_of img.width) = true
  · simp [stage_ws, h]
  · simp only [Bool.not_eq_true] at h
    simp [stage_ws, h]

theorem find0_stage_ws (ws : Worksheet) (maxw : Frac) (i : ℕ) (img : PILImage)
    (now s t : String) (hi : 1 ≤ i) :
    find0 (stage_ws ws maxw i img now).rows s t = find0 ws.rows s t := by
  obtain ⟨j, rfl⟩ : ∃ j, i = j + 1 := ⟨i - 1, by omega⟩
  rw [stage_ws_rows]
  rw [find0_updateRow_congr s t _ (fun row => by simp [rowMatchesB])]
  rw [find0_updateRow_congr s t _ (fun row => by simp [rowMatchesB])]
  rw [find0_updateRow_congr s t _ (fun row => by simp [rowMatchesB])]

theorem stage_ws_rows_length (ws : Worksheet) (maxw : Frac) (i : ℕ)
    (img : PILImage) (now : String) (hi : 1 ≤ i) :
    (stage_ws ws maxw i img now).rows.length = max ws.rows.length i := by
  obtain ⟨j, rfl⟩ : ∃ j, i = j + 1 := ⟨i - 1, by omega⟩
  rw [stage_ws_rows, updateRow_length, updateRow_length, updateRow_length]
  rw [max_assoc, max_self, max_assoc, max_self]

theorem find_row_after_stage (ws0 : Worksheet) (s t : String) (maxw : Frac)
    (img : PILImage) (now : String) :
    find_row (stage_ws (locate_stage ws0 s t).1 maxw (locate_stage ws0 s t).2 img now) s t
      = some ((locate_stage ws0 s t).2) := by
  cases h : find_row ws0 s t with
  | some i =>
    rw [locate_stage_found h]
    obtain ⟨j, hj, rfl⟩ : ∃ j, find0 ws0.rows s t = some j ∧ i = j + 1 := by
      rw [find_row, Option.map_eq_some'] at h
      obtain ⟨j, hj, hij⟩ := h
      exact ⟨j, hj, hij.symm⟩
    rw [find_row, find0_stage_ws _ _ _ _ _ _ _ (Nat.succ_le_succ (Nat.zero_le j)), hj]
    rfl
  | none =>
    rw [locate_stage_missing h]
    have hbase : find0 ws0.rows s t = none := by
      rw [find_row, Option.map_eq_none'] at h
      exact h
    rw [find_row, find0_stage_ws _ _ _ _ _ _ _ (Nat.succ_le_succ (Nat.zero_le _))]
    have hkey :
        find0 (updateRow ws0.rows (maxRow ws0 + 1) fun row =>
          { row with c1 := some s, c2 := some t }) s t = some (maxRow ws0) := by
      exact find0_updateRow_key s t _ (fun row => by simp [rowMatchesB]) (maxRow ws0)
        ws0.rows (Nat.le_max_right 1 ws0.rows.length) hbase
    simp only [hkey, Option.map_some']

theorem save_ok_eq (ws0 : Worksheet) (s t : String) (img : PILImage)
    (now : String) (t0 : Bool)
    (himg : jpegWritable (resizeImage (convertIfRGBA img)).mode = true) :
    save_image_to_excel (some ws0) s t (some img) now false t0 =
      { ok := true, errMsg := none,
        file := some (stage_ws (locate_stage ws0 s t).1 ⟨30, 1⟩
          (locate_stage ws0 s t).2 (resizeImage (convertIfRGBA img)) now),
        tempExists := false,
        row_idx := some ((locate_stage ws0 s t).2) } := by
  simp [save_image_to_excel, upsertTry, load_or_create_excel, himg]

theorem save_ok_inv (file : Option Worksheet) (s t : String) (img : PILImage)
    (now : String) (sf t0 : Bool)
    (h : (save_image_to_excel file s t (some img) now sf t0).ok = true) :
    ∃ ws0, file = some ws0 ∧ sf = false ∧
      jpegWritable (resizeImage (convertIfRGBA img)).mode = true := by
  cases file with
  | none => simp [save_image_to_excel, upsertTry, load_or_create_excel] at h
  | some ws0 =>
    by_cases hj : jpegWritable (resizeImage (convertIfRGBA img)).mode = true
    · cases sf with
      | false => exact ⟨ws0, rfl, rfl, hj⟩
      | true =>
        exfalso
        simp [save_image_to_excel, upsertTry, load_or_create_excel, hj] at h
    · exfalso
      simp only [Bool.not_eq_true] at hj
      simp [save_image_to_excel, upsertTry, load_or_create_excel, hj] at h

theorem Frac_val_whole (k : ℕ) : (⟨k, 1⟩ : Frac).val = (k : ℚ) := by
  simp [Frac.val]

theorem Frac_lt_whole_iff (k : ℕ) (b : Frac) (hb : 0 < b.den) :
    Frac.lt ⟨k, 1⟩ b = true ↔ (k : ℚ) < b.val := by
  have h := Frac.lt_iff_val ⟨k, 1⟩ b (by norm_num) hb
  rwa [Frac_val_whole] at h

theorem required_width_den_pos (n : ℕ) : 0 < (required_width_of n).den := by
  unfold required_width_of Frac.max
  split <;> norm_num

theorem val_required_width_of (n : ℕ) :
    (required_width_of n).val = pixelsToColumnWidth n := by
  have hval7 : ((⟨n, 7⟩ : Frac).val) = (n : ℚ) / 7 := by
    simp [Frac.val]
  unfold required_width_of Frac.max pixelsToColumnWidth
  by_cases h : Frac.lt ⟨10, 1⟩ ⟨n, 7⟩ = true
  · rw [if_pos h, hval7]
    have hn : 70 < n := by
      simpa [Frac.lt] using h
    have hq : (10 : ℚ) < (n : ℚ) / 7 := by
      rw [lt_div_iff₀ (by norm_num : (0 : ℚ) < 7)]
      have : ((70 : ℕ) : ℚ) < (n : ℚ) := by exact_mod_cast hn
      push_cast at this ⊢
      linarith
    rw [max_eq_right (le_of_lt hq)]
  · rw [if_neg h, Frac_val_whole]
    have hn : n ≤ 70 := by
      simp only [Frac.lt, decide_eq_true_iff, Bool.not_eq_true,
        decide_eq_false_iff_not, not_lt] at h
      omega
    have hq : (n : ℚ) / 7 ≤ 10 := by
      rw [div_le_iff₀ (by norm_num : (0 : ℚ) < 7)]
      have : (n : ℚ) ≤ ((70 : ℕ) : ℚ) := by exact_mod_cast hn
      push_cast at this ⊢
      linarith
    rw [max_eq_left hq]
    norm_num

theorem row_height_den_pos (n : ℕ) : 0 < (row_height_of n).den := by
  unfold row_height_of Frac.max
  split <;> norm_num

theorem val_row_height_of (n : ℕ) :
    (row_height_of n).val = pixelsToRowHeight n := by
  have hval : ((⟨100 * n, 133⟩ : Frac).val) = ((100 * n : ℕ) : ℚ) / 133 := by
    simp [Frac.val]
  have hdiv : (n : ℚ) / ((133 : ℚ) / 100) = ((100 * n : ℕ) : ℚ) / 133 := by
    push_cast
    field_simp
    ring
  unfold row_height_of Frac.max pixelsToRowHeight
  by_cases h : Frac.lt ⟨15, 1⟩ ⟨100 * n, 133⟩ = true
  · rw [if_pos h, hval]
    have hn : 1995 < 100 * n := by
      simpa [Frac.lt] using h
    have hq : (15 : ℚ) < ((100 * n : ℕ) : ℚ) / 133 := by
      rw [lt_div_iff₀ (by norm_num : (0 : ℚ) < 133)]
      have : ((1995 : ℕ) : ℚ) < ((100 * n : ℕ) : ℚ) := by exact_mod_cast hn
      push_cast at this ⊢
      linarith
    rw [hdiv, max_eq_right (le_of_lt hq)]
  · rw [if_neg h, Frac_val_whole]
    have hn : 100 * n ≤ 1995 := by
      simp only [Frac.lt, decide_eq_true_iff, Bool.not_eq_true,
        decide_eq_false_iff_not, not_lt] at h
      omega
    have hq : ((100 * n : ℕ) : ℚ) / 133 ≤ 15 := by
      rw [div_le_iff₀ (by norm_num : (0 : ℚ) < 133)]
      have : ((100 * n : ℕ) : ℚ) ≤ ((1995 : ℕ) : ℚ) := by exact_mod_cast hn
      push_cast at this ⊢
      linarith
    rw [hdiv, max_eq_left hq]
    norm_num

theorem lookupHeight_setHeight (hs : List (ℕ × Frac)) (i : ℕ) (v : Frac) :
    lookupHeight (setHeight hs i v) i = some v := by
  induction hs with
  | nil => simp [setHeight, lookupHeight]
  | cons p rest ih =>
    by_cases hp : p.1 = i
    · simp [setHeight, lookupHeight, hp]
    · by_cases hr : (rest.any fun q => q.1 = i) = true
      · simp only [setHeight, hr, if_true] at ih
        simp [setHeight, List.any_cons, hp, hr, lookupHeight, ih]
      · simp only [Bool.not_eq_true] at hr
        simp only [setHeight, hr, Bool.false_eq_true, if_false] at ih
        simp [setHeight, List.any_cons, hp, hr, lookupHeight, ih]

/-- Claim C4: the claim states that when the backing file does not exist,
`load_or_create_excel` initialises a fresh header table with the starter
column widths, persists it immediately and returns the workbook.  The
code instead calls `load_workbook()` with no filename on line 27 (the
intended call is `Workbook()`), which raises `TypeError` before any
workbook is created: the fresh-table branch, lines 28-37, is dead code
and nothing is ever created or persisted. -/
theorem load_or_create_crashes_when_file_missing :
    load_or_create_excel none = Except.error PyErr.typeError := rfl

/-- Claim C9: on every exit path of `save_image_to_excel` — success,
decode failure, serialisation failure, load failure and persist failure
alike — the transient `TEMP_IMAGE` file is removed (if it exists) by the
`finally` block before the operation returns, and every failure is
converted into a `False` result with an error message rather than
propagating as a crash. -/
theorem cleanup_and_boolean_outcome (file : Option Worksheet) (s t : String)
    (uploaded : Option PILImage) (now : String) (sf t0 : Bool) :
    (save_image_to_excel file s t uploaded now sf t0).tempExists = false ∧
      ((save_image_to_excel file s t uploaded now sf t0).ok = true ∧
          (save_image_to_excel file s t uploaded now sf t0).errMsg = none ∨
        (save_image_to_excel file s t uploaded now sf t0).ok = false ∧
          ∃ m, (save_image_to_excel file s t uploaded now sf t0).errMsg = some m) := by
  cases h : upsertTry file s t uploaded now sf t0 with
  | ok info =>
    simp [save_image_to_excel, h]
  | error f =>
    simp [save_image_to_excel, h]

/-- Claim C5, counterexample: the claim states that for height above 300
the normalised width equals `floor(originalWidth × 300 / originalHeight)`
exactly.  At a 145 × 348 image the exact value is `145 * 300 / 348 =
125` (the quotient is exact), but line 65 computes
`int(145 * (300 / 348))` in binary64, where `300 / 348` rounds down and
the product rounds to just below 125, so the code produces width 124. -/
theorem resize_width_differs_from_exact_floor :
    resizeImage ⟨145, 348, PILMode.RGB⟩ = ⟨124, 300, PILMode.RGB⟩ ∧
      145 * MAX_IMAGE_HEIGHT / 348 = 125 ∧
      (resizeImage ⟨145, 348, PILMode.RGB⟩).width ≠ 145 * MAX_IMAGE_HEIGHT / 348 := by
  decide

/-- Claim C5, as amended: normalisation preserves dimensions exactly when
the height is at most 300; when the height exceeds 300 it produces
height exactly 300 and width `int(originalWidth * (300 / originalHeight))`
evaluated in binary64 floating point — which agrees with
`floor(originalWidth × 300 / originalHeight)` on typical inputs, e.g.
600 × 900 ↦ 200 × 300, but can fall one below it (see the
counterexample).  Width is never independently capped, and the color
mode is untouched. -/
theorem resize_height_rule :
    (∀ img : PILImage, img.height ≤ MAX_IMAGE_HEIGHT → resizeImage img = img) ∧
      (∀ img : PILImage, MAX_IMAGE_HEIGHT < img.height →
        (resizeImage img).height = MAX_IMAGE_HEIGHT ∧
          (resizeImage img).width = pyResizeWidth img.width img.height ∧
          (resizeImage img).mode = img.mode) ∧
      resizeImage ⟨600, 900, PILMode.RGB⟩ = ⟨200, 300, PILMode.RGB⟩ := by
  refine ⟨?_, ?_, by decide⟩
  · intro img h
    cases img with
    | mk w hh m =>
      have hnot : ¬ (MAX_IMAGE_HEIGHT < hh) := Nat.not_lt.mpr h
      simp [resizeImage, resizeDims, hnot]
  · intro img h
    cases img with
    | mk w hh m =>
      simp only at h
      simp [resizeImage, resizeDims, h]

theorem resize_height_rule_witness :
    ((⟨80, 200, PILMode.RGB⟩ : PILImage).height ≤ MAX_IMAGE_HEIGHT ∧
        resizeImage ⟨80, 200, PILMode.RGB⟩ = ⟨80, 200, PILMode.RGB⟩) ∧
      MAX_IMAGE_HEIGHT < (⟨600, 900, PILMode.RGB⟩ : PILImage).height ∧
        (resizeImage ⟨600, 900, PILMode.RGB⟩).height = MAX_IMAGE_HEIGHT :=
  ⟨⟨by decide, resize_height_rule.1 ⟨80, 200, PILMode.RGB⟩ (by decide)⟩,
    by decide, (resize_height_rule.2.1 ⟨600, 900, PILMode.RGB⟩ (by decide)).1⟩

/-- Claim C7, counterexample: the claim states that every decoded image
in an alpha-bearing color mode is flattened to an opaque 3-channel
representation.  Line 58 tests only for the single mode `'RGBA'`; an
image decoded in mode `LA` (grayscale with alpha, a legal PNG mode) is
alpha-bearing but is left unconverted. -/
theorem la_mode_not_flattened :
    alpha_bearing PILMode.LA = true ∧
      (convertIfRGBA ⟨64, 64, PILMode.LA⟩).mode ≠ PILMode.RGB := by
  decide

/-- Claim C7, as amended: only images decoded in mode `RGBA` are
flattened to `RGB` (dimensions untouched) before serialisation; an image
in any other mode — alpha-bearing or not — is left unconverted, and for
mode `LA` the JPEG serialisation then fails, so the whole upsert returns
failure instead of embedding a flattened image. -/
theorem only_rgba_flattened :
    (∀ img : PILImage, img.mode = PILMode.RGBA →
        (convertIfRGBA img).mode = PILMode.RGB ∧
          (convertIfRGBA img).width = img.width ∧
          (convertIfRGBA img).height = img.height) ∧
      (∀ img : PILImage, img.mode ≠ PILMode.RGBA → convertIfRGBA img = img) ∧
      (∀ (file : Option Worksheet) (s t now : String) (sf t0 : Bool)
          (img : PILImage), img.mode = PILMode.LA →
        (save_image_to_excel file s t (some img) now sf t0).ok = false) := by
  refine ⟨?_, ?_, ?_⟩
  · intro img h
    simp [convertIfRGBA, h]
  · intro img h
    simp [convertIfRGBA, h]
  · intro file s t now sf t0 img hm
    have h1 : convertIfRGBA img = img := by
      simp [convertIfRGBA, hm]
    have h2 : jpegWritable (resizeImage (convertIfRGBA img)).mode = false := by
      rw [h1]
      have hmode : (resizeImage img).mode = img.mode := rfl
      rw [hmode, hm]
      rfl
    cases file with
    | none => simp [save_image_to_excel, upsertTry, load_or_create_excel]
    | some ws => simp [save_image_to_excel, upsertTry, load_or_create_excel, h2]

theorem only_rgba_flattened_witness :
    ((⟨4, 4, PILMode.RGBA⟩ : PILImage).mode = PILMode.RGBA ∧
        (convertIfRGBA ⟨4, 4, PILMode.RGBA⟩).mode = PILMode.RGB) ∧
      ((⟨4, 4, PILMode.L⟩ : PILImage).mode ≠ PILMode.RGBA ∧
        convertIfRGBA ⟨4, 4, PILMode.L⟩ = ⟨4, 4, PILMode.L⟩) ∧
      ((⟨4, 4, PILMode.LA⟩ : PILImage).mode = PILMode.LA ∧
        (save_image_to_excel (some fresh_sheet) ("S1") ("North")
          (some ⟨4, 4, PILMode.LA⟩) ("t") false false).ok = false) :=
  ⟨⟨rfl, (only_rgba_flattened.1 ⟨4, 4, PILMode.RGBA⟩ rfl).1⟩,
    ⟨by decide, only_rgba_flattened.2.1 ⟨4, 4, PILMode.L⟩ (by decide)⟩,
    ⟨rfl, only_rgba_flattened.2.2 (some fresh_sheet) ("S1") ("North") ("t")
      false false ⟨4, 4, PILMode.LA⟩ rfl⟩⟩

/-- Claim C8: the geometry translation is the pure functions
`pixelsToColumnWidth(px) = max(10, px / 7)` and `pixelsToRowHeight(px) =
max(15, px / 1.33)` applied to the normalised image's dimensions: the
fraction computed on line 76 and the fraction computed on line 84 have
exactly these values, the row height stored for the target row of a
successful upsert is `pixelsToRowHeight` of the normalised height, and
in particular `pixelsToColumnWidth 70 = 10`, `pixelsToColumnWidth 35 =
10` and `pixelsToRowHeight 10 = 15`. -/
theorem geometry_translation_functions :
    (∀ px : ℕ, (required_width_of px).val = pixelsToColumnWidth px) ∧
      (∀ px : ℕ, (row_height_of px).val = pixelsToRowHeight px) ∧
      pixelsToColumnWidth 70 = 10 ∧
      pixelsToColumnWidth 35 = 10 ∧
      pixelsToRowHeight 10 = 15 ∧
      (∀ (ws0 : Worksheet) (s t : String) (img : PILImage) (now : String)
          (t0 : Bool),
        jpegWritable (resizeImage (convertIfRGBA img)).mode = true →
        (lookupHeight
            (fileRowHeights (save_image_to_excel (some ws0) s t (some img) now false t0))
            ((locate_stage ws0 s t).2)).map Frac.val
          = some (pixelsToRowHeight ((resizeImage (convertIfRGBA img)).height))) := by
  refine ⟨val_required_width_of, val_row_height_of, ?_, ?_, ?_, ?_⟩
  · unfold pixelsToColumnWidth
    norm_num
  · unfold pixelsToColumnWidth
    rw [max_eq_left (by push_cast; norm_num : ((35 : ℕ) : ℚ) / 7 ≤ 10)]
  · unfold pixelsToRowHeight
    rw [max_eq_left (by push_cast; norm_num : ((10 : ℕ) : ℚ) / (133 / 100) ≤ 15)]
  · intro ws0 s t img now t0 hj
    rw [save_ok_eq ws0 s t img now t0 hj]
    simp only [fileRowHeights, stage_ws_rowHeights, lookupHeight_setHeight,
      Option.map_some']
    rw [val_row_height_of]

theorem geometry_translation_functions_witness :
    (required_width_of 350).val = pixelsToColumnWidth 350 ∧
      (row_height_of 100).val = pixelsToRowHeight 100 ∧
      (jpegWritable (resizeImage (convertIfRGBA ⟨100, 100, PILMode.RGB⟩)).mode = true ∧
        (lookupHeight
            (fileRowHeights (save_image_to_excel (some fresh_sheet) ("S1") ("North")
              (some ⟨100, 100, PILMode.RGB⟩) ("t") false false))
            ((locate_stage fresh_sheet ("S1") ("North")).2)).map Frac.val
          = some (pixelsToRowHeight
              ((resizeImage (convertIfRGBA ⟨100, 100, PILMode.RGB⟩)).height))) :=
  ⟨geometry_translation_functions.1 350, geometry_translation_functions.2.1 100,
    by decide,
    geometry_translation_functions.2.2.2.2.2 fresh_sheet ("S1") ("North")
      ⟨100, 100, PILMode.RGB⟩ ("t") false (by decide)⟩

/-- Claim C2, counterexample: the claim states that a decode failure
occurs before any row is touched, with no row appended.  In the source
the row scan *and* row creation (lines 44-54) run before `Image.open`
(line 57): upserting the absent key `("S1", "North")` into a fresh
one-row sheet with undecodable bytes appends the key row to the
in-memory worksheet before the decode failure is raised — the worksheet
at the raise has 2 rows, not the original 1. -/
theorem decode_failure_touches_row_in_memory :
    errWs (upsertTry (some fresh_sheet) ("S1") ("North") none ("t") false false)
        ≠ some fresh_sheet ∧
      errRowsLen (upsertTry (some fresh_sheet) ("S1") ("North") none ("t") false false) = 2 ∧
      fresh_sheet.rows.length = 1 := by
  decide

/-- Claim C2, as amended: an upsert on undecodable image bytes returns a
failure outcome and leaves the persisted backing file unchanged —
nothing is saved, so no persisted row, height or image changes.  The
failure does not, however, occur before any row is touched: the row
locate-or-create step runs first, so for a key not already present the
key row is appended to the in-memory worksheet before the decode error
is raised (and then discarded unsaved). -/
theorem decode_failure_preserves_persisted_rows
    (file : Option Worksheet) (s t now : String) (sf t0 : Bool)
    (ws : Worksheet) (hmiss : find_row ws s t = none) :
    ((save_image_to_excel file s t none now sf t0).ok = false ∧
        (save_image_to_excel file s t none now sf t0).file = file) ∧
      errWs (upsertTry (some ws) s t none now sf t0)
          = some (locate_stage ws s t).1 ∧
      ws.rows.length < (locate_stage ws s t).1.rows.length := by
  refine ⟨?_, ?_, ?_⟩
  · cases file with
    | none => simp [save_image_to_excel, upsertTry, load_or_create_excel]
    | some ws0 => simp [save_image_to_excel, upsertTry, load_or_create_excel, errWs]
  · simp [upsertTry, load_or_create_excel, errWs]
  · rw [locate_stage_missing hmiss]
    simp only [maxRow]
    have hlen := updateRow_length
      (fun row => { row with c1 := some s, c2 := some t })
      (max 1 ws.rows.length) ws.rows
    rw [hlen]
    simp only [Nat.max_def]
    split <;> split <;> omega

theorem decode_failure_preserves_persisted_rows_witness :
    find_row fresh_sheet ("S1") ("North") = none ∧
      ((save_image_to_excel (some fresh_sheet) ("S1") ("North") none ("t") false
            false).ok = false ∧
        (save_image_to_excel (some fresh_sheet) ("S1") ("North") none ("t") false
            false).file = some fresh_sheet) ∧
      fresh_sheet.rows.length
        < (locate_stage fresh_sheet ("S1") ("North")).1.rows.length :=
  ⟨by decide,
    (decode_failure_preserves_persisted_rows (some fresh_sheet) ("S1") ("North")
      ("t") false false fresh_sheet (by decide)).1,
    (decode_failure_preserves_persisted_rows (some fresh_sheet) ("S1") ("North")
      ("t") false false fresh_sheet (by decide)).2.2⟩

theorem find_row_some_char (ws : Worksheet) (s t : String) (i : ℕ)
    (h : find_row ws s t = some i) :
    1 ≤ i ∧ i ≤ ws.rows.length ∧ rowMatchesB (rowAt ws.rows i) s t = true ∧
      ∀ j, 1 ≤ j → j < i → rowMatchesB (rowAt ws.rows j) s t = false := by
  rw [find_row, Option.map_eq_some'] at h
  obtain ⟨a, ha, rfl⟩ := h
  rw [find0, List.findIdx?_eq_some_iff_getElem] at ha
  obtain ⟨hlen, hp, hprev⟩ := ha
  refine ⟨Nat.succ_le_succ (Nat.zero_le a), hlen, ?_, ?_⟩
  · have : rowAt ws.rows (a + 1) = ws.rows[a] := by
      rw [rowAt, Nat.add_sub_cancel, List.getD_eq_getElem ws.rows {} hlen]
    rw [this]
    exact hp
  · intro j hj1 hj2
    have hj : j - 1 < a := by omega
    have hlt : j - 1 < ws.rows.length := Nat.lt_trans hj hlen
    have : rowAt ws.rows j = ws.rows[j - 1] := by
      rw [rowAt, List.getD_eq_getElem ws.rows {} hlt]
    rw [this]
    have := hprev (j - 1) hj
    simpa using this

/-- Claim C3, counterexample: the claim states the persisted image-column
width is monotonically non-decreasing across upserts, including across
separate load/persist cycles.  The `max_image_width` attribute that
lines 79-81 compare against is attached to the in-memory workbook
object only and is never persisted, so every load resets it to 30
(line 24 comment notwithstanding): after an upsert of a 350-pixel-wide
image (width 50) a subsequent upsert of a 280-pixel-wide image finds
`280 / 7 = 40 > 30` and writes width 40, shrinking the persisted column
from 50 to 40. -/
theorem column_width_can_shrink_across_cycles :
    (save_image_to_excel (some fresh_sheet) ("S1") ("North")
        (some ⟨350, 100, PILMode.RGB⟩) ("t1") false false).ok = true ∧
      (save_image_to_excel
          (save_image_to_excel (some fresh_sheet) ("S1") ("North")
            (some ⟨350, 100, PILMode.RGB⟩) ("t1") false false).file
          ("S1") ("North") (some ⟨280, 100, PILMode.RGB⟩) ("t2") false false).ok
        = true ∧
      (fileWidthC (save_image_to_excel
          (save_image_to_excel (some fresh_sheet) ("S1") ("North")
            (some ⟨350, 100, PILMode.RGB⟩) ("t1") false false).file
          ("S1") ("North") (some ⟨280, 100, PILMode.RGB⟩) ("t2") false false)).val
        < (fileWidthC (save_image_to_excel (some fresh_sheet) ("S1") ("North")
            (some ⟨350, 100, PILMode.RGB⟩) ("t1") false false)).val := by
  refine ⟨by decide, by decide, ?_⟩
  have h1 : fileWidthC (save_image_to_excel (some fresh_sheet) ("S1") ("North")
      (some ⟨350, 100, PILMode.RGB⟩) ("t1") false false) = ⟨350, 7⟩ := by decide
  have h2 : fileWidthC (save_image_to_excel
      (save_image_to_excel (some fresh_sheet) ("S1") ("North")
        (some ⟨350, 100, PILMode.RGB⟩) ("t1") false false).file
      ("S1") ("North") (some ⟨280, 100, PILMode.RGB⟩) ("t2") false false)
      = ⟨280, 7⟩ := by decide
  rw [h1, h2]
  rw [Frac.val, Frac.val]
  norm_num

/-- Claim C3, as amended: in each upsert the tracked maximum resets to
the default 30 on load (the attribute is not persisted), so the
persisted image-column width after a successful upsert equals the
required width `pixelsToColumnWidth(new_width)` of that upsert's image
whenever that exceeds 30, and is otherwise left at its previous value.
It is therefore *not* monotone across load/persist cycles and does not
track the widest image ever inserted. -/
theorem column_width_update_rule (ws0 : Worksheet) (s t : String)
    (img : PILImage) (now : String) (t0 : Bool)
    (hj : jpegWritable (resizeImage (convertIfRGBA img)).mode = true) :
    (fileWidthC (save_image_to_excel (some ws0) s t (some img) now false t0)).val
      = if 30 < pixelsToColumnWidth ((resizeImage (convertIfRGBA img)).width)
        then pixelsToColumnWidth ((resizeImage (convertIfRGBA img)).width)
        else ws0.widthC.val := by
  rw [save_ok_eq ws0 s t img now t0 hj]
  simp only [fileWidthC]
  rw [stage_ws_widthC]
  have hloc : (locate_stage ws0 s t).1.widthC = ws0.widthC := by
    cases h : find_row ws0 s t with
    | some i => rw [locate_stage_found h]
    | none => rw [locate_stage_missing h]
  by_cases hlt :
      Frac.lt ⟨30, 1⟩ (required_width_of ((resizeImage (convertIfRGBA img)).width)) = true
  · rw [if_pos hlt]
    have hq := (Frac_lt_whole_iff 30 _ (required_width_den_pos _)).mp hlt
    rw [val_required_width_of] at hq
    push_cast at hq
    rw [if_pos hq, val_required_width_of]
  · rw [if_neg hlt, hloc]
    have hq : ¬ (30 : ℚ) < pixelsToColumnWidth ((resizeImage (convertIfRGBA img)).width) := by
      intro hc
      apply hlt
      rw [Frac_lt_whole_iff 30 _ (required_width_den_pos _), val_required_width_of]
      push_cast
      exact hc
    rw [if_neg hq]

theorem column_width_update_rule_witness :
    jpegWritable (resizeImage (convertIfRGBA ⟨350, 100, PILMode.RGB⟩)).mode = true ∧
      (fileWidthC (save_image_to_excel (some fresh_sheet) ("S1") ("North")
          (some ⟨350, 100, PILMode.RGB⟩) ("t1") false false)).val
        = if 30 < pixelsToColumnWidth
              ((resizeImage (convertIfRGBA ⟨350, 100, PILMode.RGB⟩)).width)
          then pixelsToColumnWidth
              ((resizeImage (convertIfRGBA ⟨350, 100, PILMode.RGB⟩)).width)
          else fresh_sheet.widthC.val :=
  ⟨by decide,
    column_width_update_rule fresh_sheet ("S1") ("North") ⟨350, 100, PILMode.RGB⟩
      ("t1") false (by decide)⟩

/-- Claim C10: the row scan of lines 46-49 starts at row 1 and does not
skip the header row.  The header row matches exactly the key
`("Shop_ID", "Region")` and no other key, so for that one key the
locator returns row 1, and a successful upsert with it writes the
timestamp into the header row and anchors its image at `C1` — on the
header row rather than a data row. -/
theorem header_row_scan_quirk :
    (∀ s t : String, ¬ (s = ("Shop_ID") ∧ t = ("Region")) →
        rowMatchesB headerRow s t = false) ∧
      (∀ (ws : Worksheet) (rest : List XRow), ws.rows = headerRow :: rest →
        find_row ws ("Shop_ID") ("Region") = some 1) ∧
      (∀ (ws : Worksheet) (rest : List XRow) (img : PILImage) (now : String)
          (t0 : Bool), ws.rows = headerRow :: rest →
        jpegWritable (resizeImage (convertIfRGBA img)).mode = true →
        (save_image_to_excel (some ws) ("Shop_ID") ("Region") (some img) now
              false t0).row_idx = some 1 ∧
          (rowAt (fileRows (save_image_to_excel (some ws) ("Shop_ID") ("Region")
              (some img) now false t0)) 1).c4 = some now ∧
          (1, resizeImage (convertIfRGBA img))
            ∈ fileImages (save_image_to_excel (some ws) ("Shop_ID") ("Region")
                (some img) now false t0)) := by
  have hmatch : rowMatchesB headerRow ("Shop_ID") ("Region") = true := by decide
  have hfind : ∀ (ws : Worksheet) (rest : List XRow), ws.rows = headerRow :: rest →
      find_row ws ("Shop_ID") ("Region") = some 1 := by
    intro ws rest hrows
    rw [find_row, hrows, find0_cons, if_pos hmatch]
    rfl
  refine ⟨?_, hfind, ?_⟩
  · intro s t h
    rw [rowMatchesB, decide_eq_false_iff_not]
    intro hc
    apply h
    constructor
    · have h1 : some ("Shop_ID") = some s := hc.1
      exact (Option.some.inj h1).symm
    · have h2 : some ("Region") = some t := hc.2
      exact (Option.some.inj h2).symm
  · intro ws rest img now t0 hrows himg
    rw [save_ok_eq ws ("Shop_ID") ("Region") img now t0 himg,
      locate_stage_found (hfind ws rest hrows)]
    refine ⟨rfl, ?_, ?_⟩
    · simp only [fileRows, stage_ws_rows, hrows]
      simp [updateRow, rowAt]
    · simp only [fileImages, stage_ws_images]
      simp

theorem header_row_scan_quirk_witness :
    rowMatchesB headerRow ("S1") ("North") = false ∧
      find_row fresh_sheet ("Shop_ID") ("Region") = some 1 ∧
      (save_image_to_excel (some fresh_sheet) ("Shop_ID") ("Region")
          (some ⟨100, 100, PILMode.RGB⟩) ("t") false false).row_idx = some 1 :=
  ⟨header_row_scan_quirk.1 ("S1") ("North") (by decide),
    header_row_scan_quirk.2.1 fresh_sheet [] rfl,
    (header_row_scan_quirk.2.2 fresh_sheet [] ⟨100, 100, PILMode.RGB⟩ ("t") false
      rfl (by decide)).1⟩

/-- Claim C6: upserting the same key twice targets the same row index
both times, the row count after the second upsert equals the row count
after the first (no duplicate row is appended for an existing key), and
the locator returns the 1-based index of the first matching row in
storage order (every earlier row fails the match). -/
theorem upsert_same_key_reuses_row
    (file : Option Worksheet) (s t : String) (img1 img2 : PILImage)
    (now1 now2 : String) (sf1 sf2 t0 t0' : Bool)
    (h1 : (save_image_to_excel file s t (some img1) now1 sf1 t0).ok = true)
    (h2 : (save_image_to_excel
        (save_image_to_excel file s t (some img1) now1 sf1 t0).file
        s t (some img2) now2 sf2 t0').ok = true) :
    (save_image_to_excel
        (save_image_to_excel file s t (some img1) now1 sf1 t0).file
        s t (some img2) now2 sf2 t0').row_idx
      = (save_image_to_excel file s t (some img1) now1 sf1 t0).row_idx ∧
    rowCountOf (save_image_to_excel
        (save_image_to_excel file s t (some img1) now1 sf1 t0).file
        s t (some img2) now2 sf2 t0').file
      = rowCountOf (save_image_to_excel file s t (some img1) now1 sf1 t0).file ∧
    (∀ (ws : Worksheet) (i : ℕ), find_row ws s t = some i →
      1 ≤ i ∧ i ≤ ws.rows.length ∧ rowMatchesB (rowAt ws.rows i) s t = true ∧
        ∀ j, 1 ≤ j → j < i → rowMatchesB (rowAt ws.rows j) s t = false) := by
  obtain ⟨ws0, rfl, rfl, hj1⟩ := save_ok_inv file s t img1 now1 sf1 t0 h1
  rw [save_ok_eq ws0 s t img1 now1 t0 hj1] at h2 ⊢
  simp only at h2 ⊢
  obtain ⟨ws1, heq, rfl, hj2⟩ := save_ok_inv _ s t img2 now2 sf2 t0' h2
  have hws1 := Option.some.inj heq
  rw [← hws1] at *
  rw [save_ok_eq _ s t img2 now2 t0' hj2]
  have hfind := find_row_after_stage ws0 s t ⟨30, 1⟩ (resizeImage (convertIfRGBA img1)) now1
  have hchar := find_row_some_char _ s t _ hfind
  rw [locate_stage_found hfind]
  refine ⟨rfl, ?_, fun ws i h => find_row_some_char ws s t i h⟩
  simp only [rowCountOf]
  rw [stage_ws_rows_length _ _ _ _ _ hchar.1]
  exact max_eq_left hchar.2.1

theorem upsert_same_key_reuses_row_witness :
    (save_image_to_excel (some fresh_sheet) ("S1") ("North")
        (some ⟨100, 100, PILMode.RGB⟩) ("t1") false false).ok = true ∧
      (save_image_to_excel
          (save_image_to_excel (some fresh_sheet) ("S1") ("North")
            (some ⟨100, 100, PILMode.RGB⟩) ("t1") false false).file
          ("S1") ("North") (some ⟨120, 90, PILMode.RGB⟩) ("t2") false false).ok
        = true ∧
      (save_image_to_excel
          (save_image_to_excel (some fresh_sheet) ("S1") ("North")
            (some ⟨100, 100, PILMode.RGB⟩) ("t1") false false).file
          ("S1") ("North") (some ⟨120, 90, PILMode.RGB⟩) ("t2") false false).row_idx
        = (save_image_to_excel (some fresh_sheet) ("S1") ("North")
            (some ⟨100, 100, PILMode.RGB⟩) ("t1") false false).row_idx ∧
      rowCountOf (save_image_to_excel
          (save_image_to_excel (some fresh_sheet) ("S1") ("North")
            (some ⟨100, 100, PILMode.RGB⟩) ("t1") false false).file
          ("S1") ("North") (some ⟨120, 90, PILMode.RGB⟩) ("t2") false false).file
        = rowCountOf (save_image_to_excel (some fresh_sheet) ("S1") ("North")
            (some ⟨100, 100, PILMode.RGB⟩) ("t1") false false).file :=
  ⟨by decide, by decide,
    (upsert_same_key_reuses_row (some fresh_sheet) ("S1") ("North")
      ⟨100, 100, PILMode.RGB⟩ ⟨120, 90, PILMode.RGB⟩ ("t1") ("t2") false false
      false false (by decide) (by decide)).1,
    (upsert_same_key_reuses_row (some fresh_sheet) ("S1") ("North")
      ⟨100, 100, PILMode.RGB⟩ ⟨120, 90, PILMode.RGB⟩ ("t1") ("t2") false false
      false false (by decide) (by decide)).2.1⟩

/-- Claim C1: the claim (and the spec's Sheet Store contract) states that
writing an image at a cell that already holds one replaces the overlay,
leaving exactly one overlay anchored there and no orphaned prior
overlay.  `ws.add_image` (line 89) only ever *appends* to the
worksheet's image collection — nothing removes the overlay already
anchored at the same cell — so after a second successful upsert of the
key `("S1", "North")` the sheet holds two overlays anchored at `C2`:
the stale first image and the new one.  Evaluated here: after the first
upsert row 2 carries one overlay; after the second it carries two. -/
theorem upsert_leaves_orphan_overlay :
    (save_image_to_excel (some fresh_sheet) ("S1") ("North")
        (some ⟨100, 100, PILMode.RGB⟩) ("t1") false false).ok = true ∧
      ((fileImages (save_image_to_excel (some fresh_sheet) ("S1") ("North")
          (some ⟨100, 100, PILMode.RGB⟩) ("t1") false false)).filter
        fun p => p.1 = 2).length = 1 ∧
      (save_image_to_excel
          (save_image_to_excel (some fresh_sheet) ("S1") ("North")
            (some ⟨100, 100, PILMode.RGB⟩) ("t1") false false).file
          ("S1") ("North") (some ⟨90, 80, PILMode.RGB⟩) ("t2") false false).ok
        = true ∧
      ((fileImages (save_image_to_excel
          (save_image_to_excel (some fresh_sheet) ("S1") ("North")
            (some ⟨100, 100, PILMode.RGB⟩) ("t1") false false).file
          ("S1") ("North") (some ⟨90, 80, PILMode.RGB⟩) ("t2") false false)).filter
        fun p => p.1 = 2).length = 2 := by
  decide
